import Mathlib

/-!
# Feelsy: daily check-in, streak and badge engine

A shallow embedding of `backend/internal/models/feel_check.go` and
`backend/internal/services/feel_service.go` (with the vibe handler of
`backend/internal/handlers/feel_handler.go`), followed by theorems about it.

Modelling conventions.

* `uuid.UUID` values are identifiers compared only for equality: `Nat`.
* Go `int` fields are `Int`.  The counters change by one per check-in and the
  scores are range-checked before use, so no 64-bit wrap-around is reachable.
* `time.Time` is the number of nanoseconds since the zero instant, an `Int`.
  `Truncate`, `Sub` (with its saturation at the `Duration` limits) follow the
  standard library.
* The database is an in-memory record of three tables, each a list of rows in
  primary-key order.  Statements on the check-in and vibe tables succeed;
  connection failures and column sizes are outside the model.  No code path
  under study deletes a row, so soft deletion is not represented, and neither
  are the generated `ID`, `CreatedAt` and `UpdatedAt` columns.
* The streak table has the column `unlocked_badges`, whose field is a bare
  `[]string` without serializer (`feel_check.go`, line 60).  Such a value is
  bound as a parenthesised list of its elements, `(NULL)` when it is empty: a
  list of two or more elements is refused by the database, and a stored value
  that is not null cannot be set back into the field.  `saveStreak` and `First`
  carry these two failures.
-/

namespace Feelsy

/-! ## Time -/

/-! An instant (`time.Time`) is an `Int`: nanoseconds since the zero time. -/

/-- The constant `24 * time.Hour`, in nanoseconds. -/
def day : Int := 86400000000000

/-- The largest `time.Duration` (`1<<63 - 1`). -/
def maxDuration : Int := 9223372036854775807

/-- The smallest `time.Duration` (`-1 << 63`). -/
def minDuration : Int := -9223372036854775808

/-- `Time.Truncate(d)`: round down to a multiple of `d` since the zero time. -/
def Truncate (t : Int) (d : Int) : Int :=
  if d ≤ 0 then t else t - t % d

/-- `Time.Sub(u)`: the duration `t - u`, saturated at the `Duration` limits. -/
def Sub (t u : Int) : Int :=
  if t - u > maxDuration then maxDuration
  else if t - u < minDuration then minDuration
  else t - u

/-- The expression `int(today.Sub(last).Hours() / 24)`: a float quotient,
truncated toward zero.  The float computation is exact when the duration is a
whole number of hours, which is all that two day-granular instants can differ
by, and the two saturation values lie far from a multiple of 24 hours; on these
it is the truncating integer quotient taken here.  For other durations the
model takes the exact quotient. -/
def daysSince (today last : Int) : Int :=
  Int.tdiv (Sub today last) day

/-! ## Models (`feel_check.go`) -/

/-- A row of the check-in table (`models.FeelCheck`). -/
structure FeelCheck where
  UserID : Nat
  MoodScore : Int
  EnergyScore : Int
  FeelScore : Int
  MoodEmoji : String
  Note : String
  ColorHex : String
  CheckDate : Int
  deriving DecidableEq, Repr

/-- `FeelCheck.CalculateFeelScore`: Go integer division truncates toward zero. -/
def FeelCheck.CalculateFeelScore (f : FeelCheck) : FeelCheck :=
  { f with FeelScore := Int.tdiv (f.MoodScore + f.EnergyScore) 2 }

/-- `FeelCheck.GetColorHex`: the first case of the switch that applies. -/
def FeelCheck.GetColorHex (f : FeelCheck) : String :=
  if f.FeelScore ≥ 90 then "#22c55e"
  else if f.FeelScore ≥ 75 then "#84cc16"
  else if f.FeelScore ≥ 60 then "#eab308"
  else if f.FeelScore ≥ 45 then "#f97316"
  else if f.FeelScore ≥ 30 then "#ef4444"
  else "#8b5cf6"

/-- A row of the streak table (`models.FeelStreak`).  `AverageScore` holds the
value scanned from SQL `AVG`, kept as an exact rational: the rounding to
`float64` is not modelled. -/
structure FeelStreak where
  UserID : Nat
  CurrentStreak : Int
  LongestStreak : Int
  TotalCheckIns : Int
  LastCheckDate : Option Int
  AverageScore : Rat
  UnlockedBadges : List String
  deriving DecidableEq, Repr

/-- A row of the vibe table (`models.GoodVibe`). -/
structure GoodVibe where
  SenderID : Nat
  ReceiverID : Nat
  Message : String
  VibeType : String
  deriving DecidableEq, Repr

/-- The errors of the database layer that the streak code meets. -/
inductive DBError where
  /-- The error `gorm.ErrRecordNotFound`. -/
  | recordNotFound
  /-- A column value cannot be set into its field. -/
  | scanFailed
  /-- The database refuses the statement. -/
  | rejected
  deriving DecidableEq, Repr

/-- The database handle `s.db`: the three tables the service touches. -/
structure DB where
  checks : List FeelCheck
  streaks : List FeelStreak
  vibes : List GoodVibe
  deriving DecidableEq, Repr

/-! ## Service (`feel_service.go`) -/

namespace FeelService

/-- The assignment `badges[k] = true` on a Go `map[string]bool`, the map being
given by the list of its keys, without repetition, in insertion order. -/
def setBadge (badges : List String) (k : String) : List String :=
  if k ∈ badges then badges else badges ++ [k]

/-- The statement `if cond && !badges[k] { badges[k] = true }`.  Every value
stored in the map is `true`, so `!badges[k]` holds exactly when `k` is not a
key. -/
def unlock (cond : Prop) [Decidable cond] (badges : List String) (k : String) : List String :=
  if cond ∧ ¬ k ∈ badges then setBadge badges k else badges

/-- `FeelService.checkBadgeUnlocks`.  The final `range` loop visits the keys in
an order Go leaves unspecified; the model returns them in insertion order, and
the theorems speak of membership and multiplicity only. -/
def checkBadgeUnlocks (streak total : Int) (current : List String) : List String :=
  let badges := current.foldl setBadge []
  let badges := unlock (streak ≥ 3) badges "streak_3"
  let badges := unlock (streak ≥ 7) badges "streak_7"
  let badges := unlock (streak ≥ 14) badges "streak_14"
  let badges := unlock (streak ≥ 30) badges "streak_30"
  let badges := unlock (total ≥ 10) badges "total_10"
  let badges := unlock (total ≥ 50) badges "total_50"
  let badges := unlock (total ≥ 100) badges "total_100"
  badges

/-- The row of the streak table that the query `Where("user_id = ?", userID)`
with `First` selects: the first row of the user, as it is stored. -/
def firstStreak (db : DB) (userID : Nat) : Option FeelStreak :=
  db.streaks.find? (fun r => r.UserID == userID)

/-- The zero value of `models.FeelStreak` (`var streak models.FeelStreak`). -/
def zeroStreak : FeelStreak :=
  { UserID := 0, CurrentStreak := 0, LongestStreak := 0, TotalCheckIns := 0,
    LastCheckDate := none, AverageScore := 0, UnlockedBadges := [] }

/-- The call `Where("user_id = ?", userID).First(&streak)`: the value left in
`streak` and the error.  Without a row the error is `ErrRecordNotFound`.  With
a row every column is set into its field, except that a badge column that is
not empty cannot be set into the `[]string` field: the field stays nil and the
error is a scan error. -/
def First (db : DB) (userID : Nat) : FeelStreak × Option DBError :=
  match firstStreak db userID with
  | none => (zeroStreak, some DBError.recordNotFound)
  | some row =>
    if row.UnlockedBadges = [] then (row, none)
    else ({ row with UnlockedBadges := [] }, some DBError.scanFailed)

/-- The row update of an accepted `db.Save(&streak)`: the row that `First`
selected, the first one of that user, is overwritten (inserted when absent). -/
def overwriteStreak : List FeelStreak → FeelStreak → List FeelStreak
  | [], s => [s]
  | r :: rs, s => if r.UserID == s.UserID then s :: rs else r :: overwriteStreak rs s

/-- The statement `db.Save(&streak)`: the error and the table afterwards.  A
badge list of two or more entries is bound as a row value, which the statement
does not accept: the error is returned and the table is unchanged. -/
def saveStreak (rows : List FeelStreak) (s : FeelStreak) : Option DBError × List FeelStreak :=
  if s.UnlockedBadges.length ≥ 2 then (some DBError.rejected, rows)
  else (none, overwriteStreak rows s)

/-- The query `Select("AVG(feel_score)")` over the check-ins of a user; an
empty selection scans nothing and leaves the zero value. -/
def avgFeelScore (db : DB) (userID : Nat) : Rat :=
  let scores : List Int :=
    (db.checks.filter (fun c => c.UserID == userID)).map (fun c => c.FeelScore)
  if scores.length = 0 then 0 else ((scores.sum : Int) : Rat) / ((scores.length : Nat) : Rat)

/-- Lines 129-160 of `FeelService.UpdateStreak`: the update computed from the
value that `First` left in `streak`, `today` being the truncated clock and
`avgScore` the scanned average.  The two increments are taken over the
unbounded `Int`; Go's `++` wraps at `2^63 - 1`, which counters that grow by one
per run do not reach. -/
def updateExisting (streak : FeelStreak) (today : Int) (avgScore : Rat) : FeelStreak :=
  let currentStreak :=
    match streak.LastCheckDate with
    | some last =>
      if daysSince today last = 1 then streak.CurrentStreak + 1
      else if daysSince today last > 1 then 1
      else streak.CurrentStreak
    | none => 1
  let totalCheckIns := streak.TotalCheckIns + 1
  let longestStreak :=
    if currentStreak > streak.LongestStreak then currentStreak else streak.LongestStreak
  { UserID := streak.UserID
    CurrentStreak := currentStreak
    LongestStreak := longestStreak
    TotalCheckIns := totalCheckIns
    LastCheckDate := some today
    AverageScore := avgScore
    UnlockedBadges := checkBadgeUnlocks currentStreak totalCheckIns streak.UnlockedBadges }

/-- `FeelService.UpdateStreak`, run when the clock reads `now`: the returned
error and the database afterwards.  Only `ErrRecordNotFound` leads to the
creation branch (whose `Create`, with an empty badge list, is accepted); with
any other outcome of `First` the code goes on with the value left in `streak`
and returns the error of `Save`. -/
def UpdateStreak (db : DB) (now : Int) (userID : Nat) : Option DBError × DB :=
  let today := Truncate now day
  match First db userID with
  | (_, some DBError.recordNotFound) =>
    (none,
     { db with streaks := db.streaks ++
        [{ UserID := userID
           CurrentStreak := 1
           LongestStreak := 1
           TotalCheckIns := 1
           LastCheckDate := some today
           AverageScore := 0
           UnlockedBadges := [] }] })
  | (streak, _) =>
    let saved := saveStreak db.streaks (updateExisting streak today (avgFeelScore db userID))
    (saved.1, { db with streaks := saved.2 })

/-- `FeelService.CreateFeelCheck`, called when the clock reads `now`.  The
statement `go s.UpdateStreak(userID)` is rendered by `spawned`: the clock
reading at which the started goroutine runs, or `none` while it has not run;
the error that the goroutine returns is dropped.
The result is the returned pair together with the database afterwards. -/
def CreateFeelCheck (db : DB) (now : Int) (spawned : Option Int) (userID : Nat)
    (moodScore energyScore : Int) (moodEmoji note : String) : Except String FeelCheck × DB :=
  if moodScore < 1 ∨ moodScore > 100 ∨ energyScore < 1 ∨ energyScore > 100 then
    (.error "scores must be between 1 and 100", db)
  else
    let today := Truncate now day
    if db.checks.any (fun c => c.UserID == userID && c.CheckDate == today) then
      (.error "already checked in today", db)
    else
      let check : FeelCheck :=
        { UserID := userID
          MoodScore := moodScore
          EnergyScore := energyScore
          FeelScore := 0
          MoodEmoji := moodEmoji
          Note := note
          ColorHex := ""
          CheckDate := today }
      let check := check.CalculateFeelScore
      let check := { check with ColorHex := check.GetColorHex }
      let db := { db with checks := db.checks ++ [check] }
      match spawned with
      | none => (.ok check, db)
      | some later => (.ok check, (UpdateStreak db later userID).2)

/-- `FeelService.SendGoodVibe`: the returned pair and the database afterwards. -/
def SendGoodVibe (db : DB) (senderID receiverID : Nat) (message vibeType : String) :
    Except String GoodVibe × DB :=
  if senderID == receiverID then
    (.error "cannot send vibe to yourself", db)
  else
    let vibe : GoodVibe :=
      { SenderID := senderID, ReceiverID := receiverID, Message := message, VibeType := vibeType }
    (.ok vibe, { db with vibes := db.vibes ++ [vibe] })

end FeelService

/-! ## Handler (`feel_handler.go`, `feel_dto.go`) -/

/-- The request body `dto.SendGoodVibeRequest`. -/
structure SendGoodVibeRequest where
  ReceiverID : String
  Message : String
  VibeType : String
  deriving DecidableEq, Repr

namespace FeelHandler

/-- `FeelHandler.SendGoodVibe`: the HTTP status with the response (an error
message or the created vibe), and the database afterwards.  `body` is the
outcome of `c.BodyParser` (`none` when it fails), `uuidParse` is the library
function `uuid.Parse`, and `senderID` the identity taken from the token.  The
request type tags `VibeType` with `validate:"required"`, but the handler runs
no validator, so an empty vibe type passes as any other. -/
def SendGoodVibe (uuidParse : String → Option Nat) (db : DB) (senderID : Nat)
    (body : Option SendGoodVibeRequest) : (Nat × Except String GoodVibe) × DB :=
  match body with
  | none => ((400, .error "Invalid request body"), db)
  | some req =>
    match uuidParse req.ReceiverID with
    | none => ((400, .error "Invalid receiver ID"), db)
    | some receiverID =>
      match FeelService.SendGoodVibe db senderID receiverID req.Message req.VibeType with
      | (.error msg, db) => ((400, .error msg), db)
      | (.ok vibe, db) => ((201, .ok vibe), db)

end FeelHandler

/-! ## Sequences of calls -/

/-- Successive runs of `UpdateStreak` for one user, at the given clock readings. -/
def runUpdates (db : DB) (userID : Nat) (nows : List Int) : DB :=
  nows.foldl (fun d now => (FeelService.UpdateStreak d now userID).2) db

/-- The arguments of one `CreateFeelCheck` call, with the clock readings. -/
structure CheckInCall where
  now : Int
  spawned : Option Int
  userID : Nat
  moodScore : Int
  energyScore : Int
  moodEmoji : String
  note : String
  deriving DecidableEq, Repr

/-- Successive `CreateFeelCheck` calls, each on the database left by the one before. -/
def runCheckIns (db : DB) (calls : List CheckInCall) : DB :=
  calls.foldl (fun d c =>
    (FeelService.CreateFeelCheck d c.now c.spawned c.userID c.moodScore c.energyScore
      c.moodEmoji c.note).2) db

/-- At most one check-in per pair of user and calendar date. -/
def UniqueDaily (db : DB) : Prop :=
  (db.checks.map (fun c => (c.UserID, c.CheckDate))).Nodup

instance (db : DB) : Decidable (UniqueDaily db) := by
  unfold UniqueDaily; infer_instance

/-- The badges of a user, none when the user has no streak row. -/
def badgesOf (db : DB) (userID : Nat) : List String :=
  match FeelService.firstStreak db userID with
  | some s => s.UnlockedBadges
  | none => []

/-! ## Sample data -/

/-- A database without rows. -/
def emptyDB : DB := { checks := [], streaks := [], vibes := [] }

/-- A streak row of user 7: two days running, last check-in on day 10. -/
def sampleStreak : FeelStreak :=
  { UserID := 7, CurrentStreak := 2, LongestStreak := 5, TotalCheckIns := 9,
    LastCheckDate := some (10 * day), AverageScore := 60, UnlockedBadges := ["streak_3"] }

/-- A database whose only row is `sampleStreak`. -/
def sampleDB : DB := { checks := [], streaks := [sampleStreak], vibes := [] }

/-- A check-in of user 1 with mood 70 and energy 45, before the derived fields
are set. -/
def sampleCheck : FeelCheck :=
  { UserID := 1, MoodScore := 70, EnergyScore := 45, FeelScore := 0, MoodEmoji := "",
    Note := "", ColorHex := "", CheckDate := 0 }

/-- A stand-in for `uuid.Parse` that knows the identifier of user 2. -/
def sampleParse (text : String) : Option Nat :=
  if text = "00000000-0000-0000-0000-000000000002" then some 2 else none

/-! ## The reference of the specification -/

/-- The streak counters of the specification (section 4.3), with the last
check-in date as a day number. -/
structure SpecStreak where
  current : Int
  longest : Int
  total : Int
  lastDay : Int
  deriving DecidableEq, Repr

/-- The transition of section 4.3 for an existing state and a check-in on day
`T`, as the specification words it. -/
def specStreakStep (st : SpecStreak) (T : Int) : SpecStreak :=
  let daysSince := T - st.lastDay
  let current :=
    if daysSince = 1 then st.current + 1
    else if daysSince > 1 then 1
    else st.current
  { current := current
    longest := max st.longest current
    total := st.total + 1
    lastDay := T }

/-- The badges whose threshold is met (section 4.4). -/
def specQualifies (streak total : Int) (b : String) : Prop :=
  (b = "streak_3" ∧ streak ≥ 3) ∨ (b = "streak_7" ∧ streak ≥ 7) ∨
  (b = "streak_14" ∧ streak ≥ 14) ∨ (b = "streak_30" ∧ streak ≥ 30) ∨
  (b = "total_10" ∧ total ≥ 10) ∨ (b = "total_50" ∧ total ≥ 50) ∨
  (b = "total_100" ∧ total ≥ 100)

/-- The closed set of vibe types of the specification (section 4.5). -/
def specVibeTypes : List String := ["hug", "high-five", "sunshine", "heart", "star"]

/-! ## Score calculator -/

/-- The truncating quotient by two of a sum that is not negative is the floor
of the rational half. -/
theorem tdiv_two_eq_floor (a : Int) (h : 0 ≤ a) : Int.tdiv a 2 = ⌊(a : ℚ) / 2⌋ := by
  have hfloor : ⌊(a : ℚ) / 2⌋ = a / 2 := by
    have := Rat.floor_intCast_div_natCast a 2
    simpa using this
  rw [hfloor, Int.tdiv_eq_ediv h (by decide)]

/-- C3: for every mood and energy score in the closed interval from 1 to 100,
the feel score set by `CalculateFeelScore` is the floor of half their sum and
lies between 1 and 100. -/
theorem calculateFeelScore_floor_range (f : FeelCheck)
    (hm : 1 ≤ f.MoodScore ∧ f.MoodScore ≤ 100)
    (he : 1 ≤ f.EnergyScore ∧ f.EnergyScore ≤ 100) :
    f.CalculateFeelScore.FeelScore = ⌊((f.MoodScore + f.EnergyScore : Int) : ℚ) / 2⌋ ∧
    1 ≤ f.CalculateFeelScore.FeelScore ∧ f.CalculateFeelScore.FeelScore ≤ 100 := by
  have hsum : 0 ≤ f.MoodScore + f.EnergyScore := by omega
  have hdiv : Int.tdiv (f.MoodScore + f.EnergyScore) 2 = (f.MoodScore + f.EnergyScore) / 2 :=
    Int.tdiv_eq_ediv hsum (by decide)
  refine ⟨tdiv_two_eq_floor _ hsum, ?_, ?_⟩
  · show 1 ≤ Int.tdiv (f.MoodScore + f.EnergyScore) 2
    rw [hdiv]; omega
  · show Int.tdiv (f.MoodScore + f.EnergyScore) 2 ≤ 100
    rw [hdiv]; omega

/-- Witness of C3 at mood 70 and energy 45. -/
theorem calculateFeelScore_floor_range_witness :
    ((1 ≤ sampleCheck.MoodScore ∧ sampleCheck.MoodScore ≤ 100) ∧
     (1 ≤ sampleCheck.EnergyScore ∧ sampleCheck.EnergyScore ≤ 100)) ∧
    (sampleCheck.CalculateFeelScore.FeelScore =
        ⌊((sampleCheck.MoodScore + sampleCheck.EnergyScore : Int) : ℚ) / 2⌋ ∧
      1 ≤ sampleCheck.CalculateFeelScore.FeelScore ∧
      sampleCheck.CalculateFeelScore.FeelScore ≤ 100) :=
  ⟨⟨by decide, by decide⟩, calculateFeelScore_floor_range sampleCheck (by decide) (by decide)⟩

/-- C4: `GetColorHex` gives the color of the highest lower bound of the table
that the feel score reaches, and the scores on either side of each boundary
(29/30, 44/45, 59/60, 74/75, 89/90) get different colors. -/
theorem getColorHex_table (f : FeelCheck) :
    (90 ≤ f.FeelScore → f.GetColorHex = "#22c55e") ∧
    (75 ≤ f.FeelScore ∧ f.FeelScore ≤ 89 → f.GetColorHex = "#84cc16") ∧
    (60 ≤ f.FeelScore ∧ f.FeelScore ≤ 74 → f.GetColorHex = "#eab308") ∧
    (45 ≤ f.FeelScore ∧ f.FeelScore ≤ 59 → f.GetColorHex = "#f97316") ∧
    (30 ≤ f.FeelScore ∧ f.FeelScore ≤ 44 → f.GetColorHex = "#ef4444") ∧
    (f.FeelScore < 30 → f.GetColorHex = "#8b5cf6") ∧
    ({ f with FeelScore := 29 }.GetColorHex ≠ { f with FeelScore := 30 }.GetColorHex) ∧
    ({ f with FeelScore := 44 }.GetColorHex ≠ { f with FeelScore := 45 }.GetColorHex) ∧
    ({ f with FeelScore := 59 }.GetColorHex ≠ { f with FeelScore := 60 }.GetColorHex) ∧
    ({ f with FeelScore := 74 }.GetColorHex ≠ { f with FeelScore := 75 }.GetColorHex) ∧
    ({ f with FeelScore := 89 }.GetColorHex ≠ { f with FeelScore := 90 }.GetColorHex) := by
  refine ⟨?_, ?_, ?_, ?_, ?_, ?_, ?_, ?_, ?_, ?_, ?_⟩
  · intro h; simp [FeelCheck.GetColorHex, h]
  · rintro ⟨h1, h2⟩
    have hn : ¬ f.FeelScore ≥ 90 := by omega
    simp [FeelCheck.GetColorHex, hn, h1]
  · rintro ⟨h1, h2⟩
    have hn1 : ¬ f.FeelScore ≥ 90 := by omega
    have hn2 : ¬ f.FeelScore ≥ 75 := by omega
    simp [FeelCheck.GetColorHex, hn1, hn2, h1]
  · rintro ⟨h1, h2⟩
    have hn1 : ¬ f.FeelScore ≥ 90 := by omega
    have hn2 : ¬ f.FeelScore ≥ 75 := by omega
    have hn3 : ¬ f.FeelScore ≥ 60 := by omega
    simp [FeelCheck.GetColorHex, hn1, hn2, hn3, h1]
  · rintro ⟨h1, h2⟩
    have hn1 : ¬ f.FeelScore ≥ 90 := by omega
    have hn2 : ¬ f.FeelScore ≥ 75 := by omega
    have hn3 : ¬ f.FeelScore ≥ 60 := by omega
    have hn4 : ¬ f.FeelScore ≥ 45 := by omega
    simp [FeelCheck.GetColorHex, hn1, hn2, hn3, hn4, h1]
  · intro h
    have hn1 : ¬ f.FeelScore ≥ 90 := by omega
    have hn2 : ¬ f.FeelScore ≥ 75 := by omega
    have hn3 : ¬ f.FeelScore ≥ 60 := by omega
    have hn4 : ¬ f.FeelScore ≥ 45 := by omega
    have hn5 : ¬ f.FeelScore ≥ 30 := by omega
    simp [FeelCheck.GetColorHex, hn1, hn2, hn3, hn4, hn5]
  all_goals simp [FeelCheck.GetColorHex]

/-! ## Calendar arithmetic -/

/-- Truncation to the day yields a whole number of days. -/
theorem truncate_day_eq (now : Int) : Truncate now day = (now / day) * day := by
  unfold Truncate day
  rw [if_neg (by decide)]
  omega

/-- Between two midnights `d ≥ 0` days apart, `daysSince` is `d`, capped at the
106751 days that the largest duration holds. -/
theorem daysSince_midnights (T L : Int) (hd : 0 ≤ T - L) :
    daysSince (T * day) (L * day) = if T - L ≤ 106751 then T - L else 106751 := by
  unfold daysSince Sub day maxDuration minDuration
  split_ifs with h1 h2 h3 h4 h5
  all_goals first
    | omega
    | (rw [Int.tdiv_eq_ediv (by omega) (by decide)]; omega)

/-- The three branches of the streak update agree with the difference of the
day numbers, saturation included. -/
theorem daysSince_cases (T L : Int) (hd : 0 ≤ T - L) :
    (daysSince (T * day) (L * day) = 1 ↔ T - L = 1) ∧
    (daysSince (T * day) (L * day) > 1 ↔ T - L > 1) := by
  rw [daysSince_midnights T L hd]
  split_ifs <;> omega

/-! ## The streak table -/

/-- A row found by `firstStreak` belongs to the user asked for. -/
theorem firstStreak_userID {db : DB} {userID : Nat} {s : FeelStreak}
    (h : FeelService.firstStreak db userID = some s) : s.UserID = userID := by
  unfold FeelService.firstStreak at h
  have := List.find?_some h
  simpa using this

/-- After `overwriteStreak`, the first row of the user is the written one. -/
theorem find_overwriteStreak (rows : List FeelStreak) (s : FeelStreak) :
    (FeelService.overwriteStreak rows s).find? (fun r => r.UserID == s.UserID) = some s := by
  induction rows with
  | nil => simp [FeelService.overwriteStreak]
  | cons r rs ih =>
    unfold FeelService.overwriteStreak
    by_cases hr : r.UserID = s.UserID
    · simp [hr]
    · simp [hr, List.find?_cons, ih]

/-- The update keeps the user of the row. -/
theorem updateExisting_userID (s : FeelStreak) (today : Int) (avg : Rat) :
    (FeelService.updateExisting s today avg).UserID = s.UserID := rfl

/-- Without a row, `First` reports `ErrRecordNotFound`. -/
theorem first_none {db : DB} {userID : Nat}
    (h : FeelService.firstStreak db userID = none) :
    FeelService.First db userID = (FeelService.zeroStreak, some DBError.recordNotFound) := by
  unfold FeelService.First
  rw [h]

/-- With a row, `First` leaves the row with a nil badge list in `streak`, and
its error, if any, is not `ErrRecordNotFound`. -/
theorem first_some {db : DB} {userID : Nat} {row : FeelStreak}
    (h : FeelService.firstStreak db userID = some row) :
    (FeelService.First db userID).1 = { row with UnlockedBadges := [] } ∧
    (FeelService.First db userID).2 ≠ some DBError.recordNotFound := by
  unfold FeelService.First
  rw [h]
  by_cases hb : row.UnlockedBadges = []
  · simp only [hb, if_true]
    refine ⟨?_, by simp⟩
    cases row
    simp only at hb
    simp [hb]
  · simp only [hb, if_false]
    refine ⟨?_, ?_⟩ <;> simp

/-- On a user without a streak row, `UpdateStreak` creates the initial row and
returns no error. -/
theorem updateStreak_none {db : DB} {userID : Nat} (now : Int)
    (h : FeelService.firstStreak db userID = none) :
    FeelService.UpdateStreak db now userID =
      (none,
       { db with streaks := db.streaks ++
          [{ UserID := userID, CurrentStreak := 1, LongestStreak := 1, TotalCheckIns := 1,
             LastCheckDate := some (Truncate now day), AverageScore := 0,
             UnlockedBadges := [] }] }) := by
  unfold FeelService.UpdateStreak
  rw [first_none h]

/-- On a user with a streak row, `UpdateStreak` computes the update from the row
with a nil badge list; when the computed badge list has two or more entries the
error of `Save` is returned and the database is unchanged, otherwise the row is
overwritten. -/
theorem updateStreak_some {db : DB} {userID : Nat} {row : FeelStreak} (now : Int)
    (h : FeelService.firstStreak db userID = some row) :
    FeelService.UpdateStreak db now userID =
      if (FeelService.updateExisting { row with UnlockedBadges := [] } (Truncate now day)
          (FeelService.avgFeelScore db userID)).UnlockedBadges.length ≥ 2
      then (some DBError.rejected, db)
      else (none,
        { db with
          streaks := FeelService.overwriteStreak db.streaks
            (FeelService.updateExisting { row with UnlockedBadges := [] } (Truncate now day)
              (FeelService.avgFeelScore db userID)) }) := by
  obtain ⟨h1, h2⟩ := first_some h
  unfold FeelService.UpdateStreak
  split
  · rename_i x heq
    rw [heq] at h2
    exact absurd rfl h2
  · rename_i streak e hne heq
    rw [heq] at h1
    simp only at h1
    subst h1
    unfold FeelService.saveStreak
    simp only []
    split_ifs with hlen
    · cases db
      rfl
    · rfl

/-- On a user without a streak row, the row after `UpdateStreak` is the initial
one. -/
theorem firstStreak_updateStreak_none {db : DB} {userID : Nat} (now : Int)
    (h : FeelService.firstStreak db userID = none) :
    FeelService.firstStreak (FeelService.UpdateStreak db now userID).2 userID =
      some { UserID := userID, CurrentStreak := 1, LongestStreak := 1, TotalCheckIns := 1,
             LastCheckDate := some (Truncate now day), AverageScore := 0,
             UnlockedBadges := [] } := by
  rw [updateStreak_none now h]
  unfold FeelService.firstStreak at h ⊢
  simp [List.find?_append, h]

/-- On a user with a streak row, the row after `UpdateStreak` is the old one
when `Save` is refused and the computed one otherwise. -/
theorem firstStreak_updateStreak_some {db : DB} {userID : Nat} {row : FeelStreak} (now : Int)
    (h : FeelService.firstStreak db userID = some row) :
    FeelService.firstStreak (FeelService.UpdateStreak db now userID).2 userID =
      some (if (FeelService.updateExisting { row with UnlockedBadges := [] } (Truncate now day)
          (FeelService.avgFeelScore db userID)).UnlockedBadges.length ≥ 2
        then row
        else FeelService.updateExisting { row with UnlockedBadges := [] } (Truncate now day)
          (FeelService.avgFeelScore db userID)) := by
  have hu := firstStreak_userID h
  rw [updateStreak_some now h]
  split_ifs with hlen
  · exact h
  · unfold FeelService.firstStreak
    have := find_overwriteStreak db.streaks
      (FeelService.updateExisting { row with UnlockedBadges := [] } (Truncate now day)
        (FeelService.avgFeelScore db userID))
    have huid : (FeelService.updateExisting { row with UnlockedBadges := [] } (Truncate now day)
        (FeelService.avgFeelScore db userID)).UserID = userID := hu
    rw [huid] at this
    exact this

/-! ## The streak step -/

/-- The value that lines 129-149 compute from a row whose last check-in fell on
day `L`, for a run on a day `T` not before it, is the one the reference
transition of the specification gives (over the unbounded counters of the
model). -/
theorem updateExisting_step (s : FeelStreak) (avg : Rat) (L T : Int)
    (hL : s.LastCheckDate = some (L * day)) (hd : 0 ≤ T - L) :
    (⟨(FeelService.updateExisting s (T * day) avg).CurrentStreak,
      (FeelService.updateExisting s (T * day) avg).LongestStreak,
      (FeelService.updateExisting s (T * day) avg).TotalCheckIns, T⟩ : SpecStreak) =
      specStreakStep ⟨s.CurrentStreak, s.LongestStreak, s.TotalCheckIns, L⟩ T ∧
    (FeelService.updateExisting s (T * day) avg).LastCheckDate = some (T * day) := by
  obtain ⟨h1, h2⟩ := daysSince_cases T L hd
  have hcur : (FeelService.updateExisting s (T * day) avg).CurrentStreak =
      (if T - L = 1 then s.CurrentStreak + 1 else if T - L > 1 then 1 else s.CurrentStreak) := by
    simp only [FeelService.updateExisting, hL]
    by_cases c1 : T - L = 1
    · rw [if_pos (h1.2 c1), if_pos c1]
    · have n1 : ¬ daysSince (T * day) (L * day) = 1 := fun h => c1 (h1.1 h)
      by_cases c2 : T - L > 1
      · rw [if_neg n1, if_pos (h2.2 c2), if_neg c1, if_pos c2]
      · have n2 : ¬ daysSince (T * day) (L * day) > 1 := fun h => c2 (h2.1 h)
        rw [if_neg n1, if_neg n2, if_neg c1, if_neg c2]
  have hlong : (FeelService.updateExisting s (T * day) avg).LongestStreak =
      max s.LongestStreak (FeelService.updateExisting s (T * day) avg).CurrentStreak := by
    simp only [FeelService.updateExisting]
    split_ifs with h
    · exact (max_eq_right (le_of_lt h)).symm
    · exact (max_eq_left (not_lt.mp h)).symm
  refine ⟨?_, rfl⟩
  simp only [specStreakStep, SpecStreak.mk.injEq]
  refine ⟨hcur, ?_, rfl, trivial⟩
  rw [hlong, hcur]

/-- C1: the row of user 7 holds current 2, longest 5, total 9, last check-in
day 10 and the badge `streak_3`.  For a check-in on day 11 the reference
transition gives 3, 5, 10 and day 11, and the code computes these values with
the badges `streak_3` and `total_10`; `Save` refuses the two badges, so
`UpdateStreak` returns the error and the row stays at 2, 5, 9 and day 10. -/
theorem updateStreak_save_refused :
    specStreakStep ⟨2, 5, 9, 10⟩ 11 = ⟨3, 5, 10, 11⟩ ∧
    FeelService.updateExisting (FeelService.First sampleDB 7).1
        (Truncate (11 * day + 3600000000000) day) (FeelService.avgFeelScore sampleDB 7) =
      { UserID := 7, CurrentStreak := 3, LongestStreak := 5, TotalCheckIns := 10,
        LastCheckDate := some (11 * day), AverageScore := 0,
        UnlockedBadges := ["streak_3", "total_10"] } ∧
    FeelService.UpdateStreak sampleDB (11 * day + 3600000000000) 7 =
      (some DBError.rejected, sampleDB) ∧
    FeelService.firstStreak
        (FeelService.UpdateStreak sampleDB (11 * day + 3600000000000) 7).2 7 =
      some { UserID := 7, CurrentStreak := 2, LongestStreak := 5, TotalCheckIns := 9,
             LastCheckDate := some (10 * day), AverageScore := 60,
             UnlockedBadges := ["streak_3"] } := by
  refine ⟨by decide, ?_, by decide, by decide⟩
  have havg : FeelService.avgFeelScore sampleDB 7 = 0 := by
    simp [FeelService.avgFeelScore, sampleDB]
  rw [havg]
  decide

/-! ## Badge rule set -/

/-- Membership after `setBadge`. -/
theorem mem_setBadge (l : List String) (k b : String) :
    b ∈ FeelService.setBadge l k ↔ b ∈ l ∨ b = k := by
  unfold FeelService.setBadge
  split_ifs with h
  · constructor
    · intro hb; exact Or.inl hb
    · rintro (hb | rfl)
      · exact hb
      · exact h
  · simp

/-- The key list stays free of repetition under `setBadge`. -/
theorem nodup_setBadge (l : List String) (k : String) (hl : l.Nodup) :
    (FeelService.setBadge l k).Nodup := by
  unfold FeelService.setBadge
  split_ifs with h
  · exact hl
  · rw [List.nodup_append]
    refine ⟨hl, List.nodup_singleton k, ?_⟩
    intro a ha hk
    rw [List.mem_singleton] at hk
    exact h (hk ▸ ha)

/-- Membership after loading a badge list into the map. -/
theorem mem_foldl_setBadge (current acc : List String) (b : String) :
    b ∈ current.foldl FeelService.setBadge acc ↔ b ∈ acc ∨ b ∈ current := by
  induction current generalizing acc with
  | nil => simp
  | cons c cs ih =>
    rw [List.foldl_cons, ih, mem_setBadge, List.mem_cons]
    tauto

/-- Loading a badge list into the map keeps the key list free of repetition. -/
theorem nodup_foldl_setBadge (current acc : List String) (hacc : acc.Nodup) :
    (current.foldl FeelService.setBadge acc).Nodup := by
  induction current generalizing acc with
  | nil => exact hacc
  | cons c cs ih =>
    rw [List.foldl_cons]
    exact ih _ (nodup_setBadge acc c hacc)

/-- Membership after one guarded unlock. -/
theorem mem_unlock (c : Prop) [Decidable c] (l : List String) (k b : String) :
    b ∈ FeelService.unlock c l k ↔ b ∈ l ∨ (b = k ∧ c) := by
  unfold FeelService.unlock
  split_ifs with h
  · rw [mem_setBadge]
    constructor
    · rintro (hb | hb)
      · exact Or.inl hb
      · exact Or.inr ⟨hb, h.1⟩
    · rintro (hb | hb)
      · exact Or.inl hb
      · exact Or.inr hb.1
  · constructor
    · intro hb; exact Or.inl hb
    · rintro (hb | ⟨rfl, hc⟩)
      · exact hb
      · by_contra hn
        exact h ⟨hc, hn⟩

/-- One guarded unlock keeps the key list free of repetition. -/
theorem nodup_unlock (c : Prop) [Decidable c] (l : List String) (k : String) (hl : l.Nodup) :
    (FeelService.unlock c l k).Nodup := by
  unfold FeelService.unlock
  split_ifs
  · exact nodup_setBadge l k hl
  · exact hl

/-- Membership in the result of `checkBadgeUnlocks`. -/
theorem mem_checkBadgeUnlocks (streak total : Int) (current : List String) (b : String) :
    b ∈ FeelService.checkBadgeUnlocks streak total current ↔
      (b ∈ current ∨
        (b = "streak_3" ∧ streak ≥ 3) ∨ (b = "streak_7" ∧ streak ≥ 7) ∨
        (b = "streak_14" ∧ streak ≥ 14) ∨ (b = "streak_30" ∧ streak ≥ 30) ∨
        (b = "total_10" ∧ total ≥ 10) ∨ (b = "total_50" ∧ total ≥ 50) ∨
        (b = "total_100" ∧ total ≥ 100)) := by
  simp only [FeelService.checkBadgeUnlocks, mem_unlock, mem_foldl_setBadge,
    List.not_mem_nil, false_or, or_assoc]

/-- The result of `checkBadgeUnlocks` has no badge twice. -/
theorem nodup_checkBadgeUnlocks (streak total : Int) (current : List String) :
    (FeelService.checkBadgeUnlocks streak total current).Nodup := by
  simp only [FeelService.checkBadgeUnlocks]
  exact nodup_unlock _ _ _ (nodup_unlock _ _ _ (nodup_unlock _ _ _ (nodup_unlock _ _ _
    (nodup_unlock _ _ _ (nodup_unlock _ _ _ (nodup_unlock _ _ _
      (nodup_foldl_setBadge current [] List.nodup_nil)))))))

/-- Any order in which the keys of the badge map are visited gives a list with
the same members and no repetition. -/
theorem checkBadgeUnlocks_any_order (streak total : Int) (current r : List String)
    (hr : r.Perm (FeelService.checkBadgeUnlocks streak total current)) :
    (∀ b, b ∈ r ↔ (b ∈ current ∨ specQualifies streak total b)) ∧ r.Nodup := by
  refine ⟨fun b => ?_, hr.nodup_iff.mpr (nodup_checkBadgeUnlocks streak total current)⟩
  rw [hr.mem_iff, mem_checkBadgeUnlocks]
  rfl

/-- C2: the badges returned by `checkBadgeUnlocks` are exactly the existing
badges together with `streak_3`, `streak_7`, `streak_14`, `streak_30` when the
streak is at least 3, 7, 14, 30 and `total_10`, `total_50`, `total_100` when the
total is at least 10, 50, 100; and the returned list has no identifier twice. -/
theorem checkBadgeUnlocks_union (streak total : Int) (current : List String) :
    (∀ b, b ∈ FeelService.checkBadgeUnlocks streak total current ↔
      (b ∈ current ∨
        (b = "streak_3" ∧ streak ≥ 3) ∨ (b = "streak_7" ∧ streak ≥ 7) ∨
        (b = "streak_14" ∧ streak ≥ 14) ∨ (b = "streak_30" ∧ streak ≥ 30) ∨
        (b = "total_10" ∧ total ≥ 10) ∨ (b = "total_50" ∧ total ≥ 50) ∨
        (b = "total_100" ∧ total ≥ 100))) ∧
    (FeelService.checkBadgeUnlocks streak total current).Nodup :=
  ⟨mem_checkBadgeUnlocks streak total current, nodup_checkBadgeUnlocks streak total current⟩

/-! ## First check-in -/

/-- C5: the first check-in of user 1, with mood 70 and energy 45 on day 11,
has feel score 57; the streak row that `UpdateStreak` then creates has current
streak 1, longest streak 1, total 1, last check-in day 11 and no badge, and its
average score is 0, not the 57 of the check-in. -/
theorem first_checkin_average_zero :
    (∃ check,
      (FeelService.CreateFeelCheck emptyDB (11 * day) (some (11 * day)) 1 70 45 "" "").1
        = .ok check ∧ check.FeelScore = 57) ∧
    FeelService.firstStreak
      (FeelService.CreateFeelCheck emptyDB (11 * day) (some (11 * day)) 1 70 45 "" "").2 1
      = some { UserID := 1, CurrentStreak := 1, LongestStreak := 1, TotalCheckIns := 1,
               LastCheckDate := some (11 * day), AverageScore := 0, UnlockedBadges := [] } ∧
    FeelService.avgFeelScore
      (FeelService.CreateFeelCheck emptyDB (11 * day) (some (11 * day)) 1 70 45 "" "").2 1
      = 57 := by
  refine ⟨⟨_, rfl, by decide⟩, by decide, ?_⟩
  have hchecks :
      (FeelService.CreateFeelCheck emptyDB (11 * day) (some (11 * day)) 1 70 45 "" "").2.checks
        = [{ UserID := 1, MoodScore := 70, EnergyScore := 45, FeelScore := 57, MoodEmoji := "",
             Note := "", ColorHex := "#f97316", CheckDate := 11 * day }] := by decide
  simp [FeelService.avgFeelScore, hchecks]

/-! ## Streak sequences -/

/-- C6: user 1, without a streak row, checks in on the consecutive days 1 to
7.  After six days the row holds current 6 and longest 6 with the badge
`streak_3`.  On day 7 the code computes 7 and 7 with the badges `streak_3` and
`streak_7`; `Save` refuses the two badges, `UpdateStreak` returns the error and
the row stays at current 6 and longest 6, not 7 and 7. -/
theorem streak_seventh_day_refused :
    FeelService.firstStreak
        (runUpdates emptyDB 1 [1 * day, 2 * day, 3 * day, 4 * day, 5 * day, 6 * day]) 1 =
      some { UserID := 1, CurrentStreak := 6, LongestStreak := 6, TotalCheckIns := 6,
             LastCheckDate := some (6 * day), AverageScore := 0,
             UnlockedBadges := ["streak_3"] } ∧
    (FeelService.updateExisting
        (FeelService.First
          (runUpdates emptyDB 1 [1 * day, 2 * day, 3 * day, 4 * day, 5 * day, 6 * day]) 1).1
        (7 * day) 0).UnlockedBadges = ["streak_3", "streak_7"] ∧
    FeelService.UpdateStreak
        (runUpdates emptyDB 1 [1 * day, 2 * day, 3 * day, 4 * day, 5 * day, 6 * day])
        (7 * day) 1 =
      (some DBError.rejected,
        runUpdates emptyDB 1 [1 * day, 2 * day, 3 * day, 4 * day, 5 * day, 6 * day]) ∧
    FeelService.firstStreak
        (runUpdates emptyDB 1
          [1 * day, 2 * day, 3 * day, 4 * day, 5 * day, 6 * day, 7 * day]) 1 =
      some { UserID := 1, CurrentStreak := 6, LongestStreak := 6, TotalCheckIns := 6,
             LastCheckDate := some (6 * day), AverageScore := 0,
             UnlockedBadges := ["streak_3"] } := by
  refine ⟨by decide, by decide, by decide, by decide⟩

/-! ## Badge monotonicity -/

/-- C7: user 1, without a streak row, checks in on days 1, 2 and 3: the row
holds current 3 and the badge `streak_3`.  On day 6 `First` cannot set the
stored badge into the field and leaves it nil; the code resets the current
streak to 1, computes no badge from the nil list and saves the row: `streak_3`
is no longer among the badges of the user. -/
theorem badge_lost_after_reset :
    FeelService.firstStreak (runUpdates emptyDB 1 [1 * day, 2 * day, 3 * day]) 1 =
      some { UserID := 1, CurrentStreak := 3, LongestStreak := 3, TotalCheckIns := 3,
             LastCheckDate := some (3 * day), AverageScore := 0,
             UnlockedBadges := ["streak_3"] } ∧
    FeelService.First (runUpdates emptyDB 1 [1 * day, 2 * day, 3 * day]) 1 =
      ({ UserID := 1, CurrentStreak := 3, LongestStreak := 3, TotalCheckIns := 3,
         LastCheckDate := some (3 * day), AverageScore := 0, UnlockedBadges := [] },
       some DBError.scanFailed) ∧
    FeelService.UpdateStreak (runUpdates emptyDB 1 [1 * day, 2 * day, 3 * day]) (6 * day) 1 =
      (none,
       { checks := [],
         streaks := [{ UserID := 1, CurrentStreak := 1, LongestStreak := 3, TotalCheckIns := 4,
                       LastCheckDate := some (6 * day), AverageScore := 0,
                       UnlockedBadges := [] }],
         vibes := [] }) ∧
    "streak_3" ∈ badgesOf (runUpdates emptyDB 1 [1 * day, 2 * day, 3 * day]) 1 ∧
    ¬ "streak_3" ∈ badgesOf (runUpdates emptyDB 1 [1 * day, 2 * day, 3 * day, 6 * day]) 1 := by
  refine ⟨by decide, by decide, by decide, by decide, by decide⟩

/-! ## Daily uniqueness -/

/-- `UpdateStreak` does not touch the check-in table. -/
theorem updateStreak_checks (db : DB) (now : Int) (userID : Nat) :
    (FeelService.UpdateStreak db now userID).2.checks = db.checks := by
  cases h : FeelService.firstStreak db userID with
  | none => rw [updateStreak_none now h]
  | some row =>
    rw [updateStreak_some now h]
    split_ifs <;> rfl

/-- The duplicate test of `CreateFeelCheck` holds exactly when the table has a
check-in of the user on that date. -/
theorem any_today_iff (checks : List FeelCheck) (userID : Nat) (today : Int) :
    checks.any (fun c => c.UserID == userID && c.CheckDate == today) = true ↔
      ∃ c ∈ checks, c.UserID = userID ∧ c.CheckDate = today := by
  simp [List.any_eq_true]

/-- A call that finds a check-in of the user on the date of the clock fails and
leaves the database as it is. -/
theorem createFeelCheck_duplicate (db : DB) (now : Int) (spawned : Option Int) (userID : Nat)
    (moodScore energyScore : Int) (moodEmoji note : String)
    (hm : 1 ≤ moodScore ∧ moodScore ≤ 100) (he : 1 ≤ energyScore ∧ energyScore ≤ 100)
    (hdup : ∃ c ∈ db.checks, c.UserID = userID ∧ c.CheckDate = Truncate now day) :
    FeelService.CreateFeelCheck db now spawned userID moodScore energyScore moodEmoji note =
      (.error "already checked in today", db) := by
  have hvalid : ¬ (moodScore < 1 ∨ moodScore > 100 ∨ energyScore < 1 ∨ energyScore > 100) := by
    omega
  unfold FeelService.CreateFeelCheck
  rw [if_neg hvalid]
  simp only []
  rw [if_pos ((any_today_iff db.checks userID (Truncate now day)).mpr hdup)]

/-- A call with valid scores that finds no check-in of the user on the date of
the clock returns the new check-in and appends it to the check-in table. -/
theorem createFeelCheck_fresh (db : DB) (now : Int) (spawned : Option Int) (userID : Nat)
    (moodScore energyScore : Int) (moodEmoji note : String)
    (hm : 1 ≤ moodScore ∧ moodScore ≤ 100) (he : 1 ≤ energyScore ∧ energyScore ≤ 100)
    (hnew : ¬ ∃ c ∈ db.checks, c.UserID = userID ∧ c.CheckDate = Truncate now day) :
    ∃ check,
      (FeelService.CreateFeelCheck db now spawned userID moodScore energyScore moodEmoji note).1
        = .ok check ∧
      (FeelService.CreateFeelCheck db now spawned userID moodScore energyScore moodEmoji note).2.checks
        = db.checks ++ [check] ∧
      check.UserID = userID ∧ check.CheckDate = Truncate now day ∧
      check.MoodScore = moodScore ∧ check.EnergyScore = energyScore ∧
      check.MoodEmoji = moodEmoji ∧ check.Note = note ∧
      check.FeelScore = (moodScore + energyScore) / 2 ∧
      check.ColorHex = check.GetColorHex := by
  have hvalid : ¬ (moodScore < 1 ∨ moodScore > 100 ∨ energyScore < 1 ∨ energyScore > 100) := by
    omega
  have hany : ¬ (db.checks.any
      (fun c => c.UserID == userID && c.CheckDate == Truncate now day) = true) :=
    fun h => hnew ((any_today_iff db.checks userID (Truncate now day)).mp h)
  have hscore : Int.tdiv (moodScore + energyScore) 2 = (moodScore + energyScore) / 2 :=
    Int.tdiv_eq_ediv (by omega) (by decide)
  unfold FeelService.CreateFeelCheck
  rw [if_neg hvalid]
  simp only []
  rw [if_neg hany]
  cases spawned with
  | none =>
    refine ⟨_, rfl, rfl, rfl, rfl, rfl, rfl, rfl, rfl, hscore, rfl⟩
  | some later =>
    refine ⟨_, rfl, ?_, rfl, rfl, rfl, rfl, rfl, rfl, hscore, rfl⟩
    exact updateStreak_checks _ later userID

/-- One call of `CreateFeelCheck`, with any arguments, keeps at most one
check-in per user and date. -/
theorem createFeelCheck_uniqueDaily (db : DB) (now : Int) (spawned : Option Int) (userID : Nat)
    (moodScore energyScore : Int) (moodEmoji note : String) (hdb : UniqueDaily db) :
    UniqueDaily
      (FeelService.CreateFeelCheck db now spawned userID moodScore energyScore moodEmoji note).2 := by
  by_cases hvalid : moodScore < 1 ∨ moodScore > 100 ∨ energyScore < 1 ∨ energyScore > 100
  · unfold FeelService.CreateFeelCheck
    rw [if_pos hvalid]
    exact hdb
  · have hm : 1 ≤ moodScore ∧ moodScore ≤ 100 := by omega
    have he : 1 ≤ energyScore ∧ energyScore ≤ 100 := by omega
    by_cases hdup : ∃ c ∈ db.checks, c.UserID = userID ∧ c.CheckDate = Truncate now day
    · rw [createFeelCheck_duplicate db now spawned userID moodScore energyScore moodEmoji note
        hm he hdup]
      exact hdb
    · obtain ⟨check, _, hchecks, hu, hdate, _⟩ :=
        createFeelCheck_fresh db now spawned userID moodScore energyScore moodEmoji note
          hm he hdup
      unfold UniqueDaily at hdb ⊢
      rw [hchecks, List.map_append, List.nodup_append]
      refine ⟨hdb, List.nodup_singleton _, ?_⟩
      intro key hkey hkey2
      rw [List.map_singleton, List.mem_singleton] at hkey2
      rw [List.mem_map] at hkey
      obtain ⟨c, hc, hck⟩ := hkey
      apply hdup
      refine ⟨c, hc, ?_⟩
      rw [hkey2, hu, hdate] at hck
      exact ⟨(Prod.mk.inj hck).1, (Prod.mk.inj hck).2⟩

/-- Successive calls of `CreateFeelCheck` keep at most one check-in per user
and date. -/
theorem runCheckIns_uniqueDaily (calls : List CheckInCall) :
    ∀ db : DB, UniqueDaily db → UniqueDaily (runCheckIns db calls) := by
  induction calls with
  | nil => intro db hdb; exact hdb
  | cons c cs ih =>
    intro db hdb
    exact ih _ (createFeelCheck_uniqueDaily db c.now c.spawned c.userID c.moodScore
      c.energyScore c.moodEmoji c.note hdb)

/-- C8: with valid mood and energy, `CreateFeelCheck` fails and leaves the
database unchanged when the check-in table holds a check-in of the user on the
date of the clock; when it holds none, it succeeds and appends exactly one
check-in, of that user and date with the derived feel score and color; hence
successive calls never leave two check-ins of one user on one date. -/
theorem createFeelCheck_daily_unique (db : DB) (now : Int) (spawned : Option Int)
    (userID : Nat) (moodScore energyScore : Int) (moodEmoji note : String)
    (hm : 1 ≤ moodScore ∧ moodScore ≤ 100) (he : 1 ≤ energyScore ∧ energyScore ≤ 100) :
    ((∃ c ∈ db.checks, c.UserID = userID ∧ c.CheckDate = Truncate now day) →
      FeelService.CreateFeelCheck db now spawned userID moodScore energyScore moodEmoji note =
        (.error "already checked in today", db)) ∧
    ((¬ ∃ c ∈ db.checks, c.UserID = userID ∧ c.CheckDate = Truncate now day) →
      ∃ check,
        (FeelService.CreateFeelCheck db now spawned userID moodScore energyScore moodEmoji
          note).1 = .ok check ∧
        (FeelService.CreateFeelCheck db now spawned userID moodScore energyScore moodEmoji
          note).2.checks = db.checks ++ [check] ∧
        check.UserID = userID ∧ check.CheckDate = Truncate now day ∧
        check.MoodScore = moodScore ∧ check.EnergyScore = energyScore ∧
        check.MoodEmoji = moodEmoji ∧ check.Note = note ∧
        check.FeelScore = (moodScore + energyScore) / 2 ∧
        check.ColorHex = check.GetColorHex) ∧
    (∀ calls : List CheckInCall, UniqueDaily db → UniqueDaily (runCheckIns db calls)) :=
  ⟨createFeelCheck_duplicate db now spawned userID moodScore energyScore moodEmoji note hm he,
   createFeelCheck_fresh db now spawned userID moodScore energyScore moodEmoji note hm he,
   fun calls hdb => runCheckIns_uniqueDaily calls db hdb⟩

/-- Witness of C8: on the empty database a first call of user 1 on day 11
succeeds, and a second call one hour later fails without any change. -/
theorem createFeelCheck_daily_unique_witness :
    (FeelService.CreateFeelCheck emptyDB (11 * day) none 1 70 45 "" "").2.checks =
      [{ UserID := 1, MoodScore := 70, EnergyScore := 45, FeelScore := 57, MoodEmoji := "",
         Note := "", ColorHex := "#f97316", CheckDate := 11 * day }] ∧
    FeelService.CreateFeelCheck
        (FeelService.CreateFeelCheck emptyDB (11 * day) none 1 70 45 "" "").2
        (11 * day + 3600000000000) none 1 20 30 "" "" =
      (.error "already checked in today",
        (FeelService.CreateFeelCheck emptyDB (11 * day) none 1 70 45 "" "").2) :=
  ⟨by decide,
   (createFeelCheck_daily_unique
      (FeelService.CreateFeelCheck emptyDB (11 * day) none 1 70 45 "" "").2
      (11 * day + 3600000000000) none 1 20 30 "" "" (by decide) (by decide)).1
     ⟨{ UserID := 1, MoodScore := 70, EnergyScore := 45, FeelScore := 57, MoodEmoji := "",
        Note := "", ColorHex := "#f97316", CheckDate := 11 * day }, by decide, by decide⟩⟩

/-! ## Good vibes -/

/-- Between two distinct users the service stores the vibe with the given type
without looking at it. -/
theorem sendGoodVibe_service_ok (db : DB) (senderID receiverID : Nat)
    (message vibeType : String) (hne : senderID ≠ receiverID) :
    FeelService.SendGoodVibe db senderID receiverID message vibeType =
      (.ok { SenderID := senderID, ReceiverID := receiverID, Message := message,
             VibeType := vibeType },
       { db with vibes := db.vibes ++
          [{ SenderID := senderID, ReceiverID := receiverID, Message := message,
             VibeType := vibeType }] }) := by
  unfold FeelService.SendGoodVibe
  have hb : (senderID == receiverID) = false := by simpa using hne
  simp [hb]

/-- C9 as stated fails: the type "poke" is outside the closed set, and the
vibe from user 1 to user 2 carrying it is accepted by the service and by the
handler (status 201) and is stored. -/
theorem sendGoodVibe_unknown_type_stored :
    ¬ "poke" ∈ specVibeTypes ∧
    FeelService.SendGoodVibe emptyDB 1 2 "hi" "poke" =
      (.ok { SenderID := 1, ReceiverID := 2, Message := "hi", VibeType := "poke" },
       { checks := [], streaks := [],
         vibes := [{ SenderID := 1, ReceiverID := 2, Message := "hi", VibeType := "poke" }] }) ∧
    FeelHandler.SendGoodVibe sampleParse emptyDB 1
        (some { ReceiverID := "00000000-0000-0000-0000-000000000002", Message := "hi",
                VibeType := "poke" }) =
      ((201, .ok { SenderID := 1, ReceiverID := 2, Message := "hi", VibeType := "poke" }),
       { checks := [], streaks := [],
         vibes := [{ SenderID := 1, ReceiverID := 2, Message := "hi", VibeType := "poke" }] }) := by
  refine ⟨by decide, rfl, rfl⟩

/-- C9 amended: the closed set of vibe types is not enforced.  For every
sender, distinct receiver, message and vibe type that is not empty, in the
closed set or not, `SendGoodVibe` succeeds and stores exactly one vibe carrying
that type unchanged, and the handler answers 201 for every request whose
receiver parses to that user. -/
theorem sendGoodVibe_any_type (db : DB) (senderID receiverID : Nat)
    (message vibeType : String) (hne : senderID ≠ receiverID) (_hreq : vibeType ≠ "") :
    FeelService.SendGoodVibe db senderID receiverID message vibeType =
      (.ok { SenderID := senderID, ReceiverID := receiverID, Message := message,
             VibeType := vibeType },
       { db with vibes := db.vibes ++
          [{ SenderID := senderID, ReceiverID := receiverID, Message := message,
             VibeType := vibeType }] }) ∧
    (∀ (uuidParse : String → Option Nat) (receiverText : String),
      uuidParse receiverText = some receiverID →
      FeelHandler.SendGoodVibe uuidParse db senderID
          (some { ReceiverID := receiverText, Message := message, VibeType := vibeType }) =
        ((201, .ok { SenderID := senderID, ReceiverID := receiverID, Message := message,
                     VibeType := vibeType }),
         { db with vibes := db.vibes ++
            [{ SenderID := senderID, ReceiverID := receiverID, Message := message,
               VibeType := vibeType }] })) := by
  refine ⟨sendGoodVibe_service_ok db senderID receiverID message vibeType hne, ?_⟩
  intro uuidParse receiverText hparse
  unfold FeelHandler.SendGoodVibe
  simp only [hparse, sendGoodVibe_service_ok db senderID receiverID message vibeType hne]

/-- Witness of the amended C9: user 3 sends the type "wave" to user 4. -/
theorem sendGoodVibe_any_type_witness :
    ((3 : Nat) ≠ 4 ∧ ("wave" : String) ≠ "") ∧
    FeelService.SendGoodVibe emptyDB 3 4 "" "wave" =
      (.ok { SenderID := 3, ReceiverID := 4, Message := "", VibeType := "wave" },
       { emptyDB with vibes := emptyDB.vibes ++
          [{ SenderID := 3, ReceiverID := 4, Message := "", VibeType := "wave" }] }) :=
  ⟨⟨by decide, by decide⟩,
   (sendGoodVibe_any_type emptyDB 3 4 "" "wave" (by decide) (by decide)).1⟩

/-- C10: for every user, message and vibe type, `SendGoodVibe` from the user to
the same user returns an error and leaves the database, the vibe table
included, unchanged. -/
theorem sendGoodVibe_self_fails (db : DB) (userID : Nat) (message vibeType : String) :
    FeelService.SendGoodVibe db userID userID message vibeType =
      (.error "cannot send vibe to yourself", db) ∧
    (FeelService.SendGoodVibe db userID userID message vibeType).2.vibes = db.vibes := by
  have h : FeelService.SendGoodVibe db userID userID message vibeType =
      (.error "cannot send vibe to yourself", db) := by
    unfold FeelService.SendGoodVibe
    simp
  exact ⟨h, by rw [h]⟩

/-! ## Counter ordering -/

/-- The update of an existing row keeps `1 ≤ current ≤ longest ≤ total`,
whatever the stored date and the clock are, and never lowers the longest
streak. -/
theorem updateExisting_ordered (s : FeelStreak) (today : Int) (avg : Rat)
    (h1 : 1 ≤ s.CurrentStreak) (h2 : s.CurrentStreak ≤ s.LongestStreak)
    (h3 : s.LongestStreak ≤ s.TotalCheckIns) :
    1 ≤ (FeelService.updateExisting s today avg).CurrentStreak ∧
    (FeelService.updateExisting s today avg).CurrentStreak ≤
      (FeelService.updateExisting s today avg).LongestStreak ∧
    (FeelService.updateExisting s today avg).LongestStreak ≤
      (FeelService.updateExisting s today avg).TotalCheckIns ∧
    s.LongestStreak ≤ (FeelService.updateExisting s today avg).LongestStreak := by
  simp only [FeelService.updateExisting]
  cases s.LastCheckDate with
  | none =>
    simp only []
    split_ifs <;> omega
  | some last =>
    simp only []
    split_ifs <;> omega

/-- One run of `UpdateStreak` on a user whose row satisfies the ordering leaves
a row that satisfies it, with a longest streak not below the one before,
whether `Save` is accepted or refused. -/
theorem updateStreak_ordered (db : DB) (now : Int) (userID : Nat) (s : FeelStreak)
    (hs : FeelService.firstStreak db userID = some s)
    (h1 : 1 ≤ s.CurrentStreak) (h2 : s.CurrentStreak ≤ s.LongestStreak)
    (h3 : s.LongestStreak ≤ s.TotalCheckIns) :
    ∃ r, FeelService.firstStreak (FeelService.UpdateStreak db now userID).2 userID = some r ∧
      1 ≤ r.CurrentStreak ∧ r.CurrentStreak ≤ r.LongestStreak ∧
      r.LongestStreak ≤ r.TotalCheckIns ∧ s.LongestStreak ≤ r.LongestStreak := by
  refine ⟨_, firstStreak_updateStreak_some now hs, ?_⟩
  split_ifs with hlen
  · exact ⟨h1, h2, h3, le_refl _⟩
  · exact updateExisting_ordered { s with UnlockedBadges := [] } (Truncate now day)
      (FeelService.avgFeelScore db userID) h1 h2 h3

/-- Runs of `UpdateStreak` on a user whose row satisfies the ordering leave a
row that satisfies it, with a longest streak not below the one before. -/
theorem runUpdates_ordered (userID : Nat) (nows : List Int) :
    ∀ (db : DB) (s : FeelStreak), FeelService.firstStreak db userID = some s →
      1 ≤ s.CurrentStreak → s.CurrentStreak ≤ s.LongestStreak →
      s.LongestStreak ≤ s.TotalCheckIns →
      ∃ r, FeelService.firstStreak (runUpdates db userID nows) userID = some r ∧
        1 ≤ r.CurrentStreak ∧ r.CurrentStreak ≤ r.LongestStreak ∧
        r.LongestStreak ≤ r.TotalCheckIns ∧ s.LongestStreak ≤ r.LongestStreak := by
  induction nows with
  | nil =>
    intro db s hs h1 h2 h3
    exact ⟨s, hs, h1, h2, h3, le_refl _⟩
  | cons t ts ih =>
    intro db s hs h1 h2 h3
    obtain ⟨m, hm, k1, k2, k3, k4⟩ := updateStreak_ordered db t userID s hs h1 h2 h3
    obtain ⟨r, hr, r1, r2, r3, r4⟩ :=
      ih (FeelService.UpdateStreak db t userID).2 m hm k1 k2 k3
    exact ⟨r, hr, r1, r2, r3, le_trans k4 r4⟩

/-- C11: in every streak row reached from a user without a row by a sequence
of runs of `UpdateStreak`, at any clock readings (same-day and backdated ones
included), `1 ≤ currentStreak ≤ longestStreak ≤ totalCheckIns` holds, and one
more run never leaves a smaller longest streak. -/
theorem counters_ordered (db : DB) (userID : Nat) (nows : List Int)
    (hnone : FeelService.firstStreak db userID = none)
    (hne : nows ≠ []) :
    ∃ r, FeelService.firstStreak (runUpdates db userID nows) userID = some r ∧
      1 ≤ r.CurrentStreak ∧ r.CurrentStreak ≤ r.LongestStreak ∧
      r.LongestStreak ≤ r.TotalCheckIns ∧
      (∀ now : Int, ∃ r2,
        FeelService.firstStreak
          (FeelService.UpdateStreak (runUpdates db userID nows) now userID).2 userID
            = some r2 ∧
        r.LongestStreak ≤ r2.LongestStreak) := by
  cases nows with
  | nil => exact absurd rfl hne
  | cons t ts =>
    have hfirst := firstStreak_updateStreak_none t hnone
    have hrun : runUpdates db userID (t :: ts) =
        runUpdates (FeelService.UpdateStreak db t userID).2 userID ts := rfl
    obtain ⟨r, hr, r1, r2, r3, _⟩ :=
      runUpdates_ordered userID ts (FeelService.UpdateStreak db t userID).2 _ hfirst
        (le_refl _) (le_refl _) (le_refl _)
    rw [hrun]
    refine ⟨r, hr, r1, r2, r3, ?_⟩
    intro now
    obtain ⟨m, hm, _, _, _, k4⟩ := updateStreak_ordered _ now userID r hr r1 r2 r3
    exact ⟨m, hm, k4⟩

/-- Witness of C11: user 1 checks in on day 3, again on day 3, then backdated
on day 1 and on day 9; the row holds 1, 1 and 4, and a further run on day 10
does not lower the longest streak. -/
theorem counters_ordered_witness :
    ∃ r, FeelService.firstStreak
        (runUpdates emptyDB 1 [3 * day, 3 * day + 5, 1 * day, 9 * day]) 1 = some r ∧
      1 ≤ r.CurrentStreak ∧ r.CurrentStreak ≤ r.LongestStreak ∧
      r.LongestStreak ≤ r.TotalCheckIns ∧
      (∀ now : Int, ∃ r2,
        FeelService.firstStreak
          (FeelService.UpdateStreak
            (runUpdates emptyDB 1 [3 * day, 3 * day + 5, 1 * day, 9 * day]) now 1).2 1
            = some r2 ∧
        r.LongestStreak ≤ r2.LongestStreak) :=
  counters_ordered emptyDB 1 [3 * day, 3 * day + 5, 1 * day, 9 * day] rfl (by decide)

end Feelsy
